import Mathlib

/-!
Shallow embedding of
`metaflow_extensions/netflix_ext/plugins/conda/conda_step_decorator.py`.

The file defines the step decorators `PackageRequirementStepDecorator` (with
its `@conda` / `@pypi` subclasses) and `CondaEnvInternalDecorator`, whose
lifecycle hooks provision an isolated Conda environment for a pipeline step.
All substantive environment work is delegated to external collaborators
(`Conda`, `CondaEnvironment`, the datastore, `generate_trampolines`, ...)
that are not part of the given source; their observable behaviour is
modelled as fields of a `CondaOracle` record passed to every hook, and the
hooks themselves are translated line by line.  Mutable state (`self`,
`os.environ`, `cli_args`, the filesystem) becomes explicit state passing;
Python exceptions become `Except PyError`.
-/

set_option autoImplicit false
set_option linter.unusedVariables false

namespace CondaStep

/-- Value of `metaflow.unbounded_foreach.UBF_CONTROL` (host framework constant). -/
def UBF_CONTROL : String := "ubf_control"

/-- Value of `metaflow.unbounded_foreach.UBF_TASK` (host framework constant). -/
def UBF_TASK : String := "ubf_task"

/-- Value of `metaflow.extension_support.EXT_PKG` (host framework constant). -/
def EXT_PKG : String := "metaflow_extensions"

/-- Modelled from the spec: `EnvID` from `.env_descr` (not under `src/`) is the
identifier of a resolved environment; the source uses its fields `req_id` and
`full_id` (for echo messages) and serializes it with `json.dumps`. -/
structure EnvID where
  req_id : String
  full_id : String
  arch : String
deriving DecidableEq, Repr

/-- Result of `CondaEnvironment.get_env_id_noconda`: the source checks
`isinstance(t, EnvID)` at runtime, so the collaborator may return an `EnvID`
or some other value (kept as its `str(...)` rendering, which is all the
source uses of it). -/
inductive EnvIdResult where
  | envid (e : EnvID)
  | other (s : String)
deriving DecidableEq, Repr

deriving instance DecidableEq for Except

/-- Python exceptions raised (or raisable) by the embedded code. -/
inductive PyError where
  | invalidEnvironment (msg : String)
  | valueError
  | keyError (k : String)
  | indexError
  | assertionError
deriving DecidableEq, Repr

/-- Python `dict` / `os.environ` as an association list (first match wins on
lookup; assignment overwrites in place or appends, preserving insertion
order, like a Python dict). -/
abbrev StrDict := List (String × String)

/-- `d[k]` lookup returning `none` when the key is absent (`dict.get`). -/
def dictGet (m : StrDict) (k : String) : Option String :=
  match m with
  | [] => none
  | (k2, v) :: rest => if k2 = k then some v else dictGet rest k

/-- `d[k] = v` assignment: overwrite the existing binding or append a new one. -/
def dictSet (m : StrDict) (k v : String) : StrDict :=
  match m with
  | [] => [(k, v)]
  | (k2, v2) :: rest =>
    if k2 = k then (k2, v) :: rest else (k2, v2) :: dictSet rest k v

/-- `str.split("/")` on the character list (no maximum split count):
`""` yields `[""]`, adjacent separators yield empty fields, like Python. -/
def splitChars : List Char → List (List Char)
  | [] => [[]]
  | c :: rest =>
    match splitChars rest with
    | [] => [[]]
    | h :: t => if c = '/' then [] :: h :: t else (c :: h) :: t

/-- `str.split("/")`. -/
def splitSlash (s : String) : List String :=
  (splitChars s.data).map (fun l => ⟨l⟩)

/-- `str.startswith(pre)` / a textual-prefix test (character-wise, so that
it evaluates by kernel reduction). -/
def strStarts (pre s : String) : Bool :=
  decide (s.data.take pre.data.length = pre.data)

/-- `str.upper()` (character-wise, which agrees with Python on the ASCII
parameter names at hand). -/
def pyUpper (s : String) : String :=
  ⟨s.data.map Char.toUpper⟩

/-- `str.replace("-", "_")` (a single-character pattern, so character-wise). -/
def pyReplaceDash (s : String) : String :=
  ⟨s.data.map (fun c => if c = '-' then '_' else c)⟩

/-- `"METAFLOW_INIT_%s" % var.upper().replace("-", "_")`, the key recorded
for a flow parameter. -/
def initVarKey (var : String) : String :=
  "METAFLOW_INIT_" ++ pyReplaceDash (pyUpper var)

/-- `os.path.dirname`: everything before the final path separator. -/
def dirname (p : String) : String :=
  String.intercalate "/" (splitSlash p).dropLast

/-- `json.dumps` on an `Optional[EnvID]`: `None` serializes to `null` and the
`EnvID` named tuple to a JSON array of its three fields. -/
def jsonDumpsEnvId : Option EnvID → String
  | none => "null"
  | some e =>
    "[\"" ++ e.req_id ++ "\", \"" ++ e.full_id ++ "\", \"" ++ e.arch ++ "\"]"

/-- Observable behaviour of the external collaborators used by the decorator:
`CondaEnvironment` / `Conda` (environment resolution and creation), the flow
and its datastore (parameter loading), `get_metaflow_root`,
`get_environment_info`, the extension-package import, `generate_trampolines`
and `arch_id`.  None of their code is part of the given source; each field
records exactly the value the decorator observes. -/
structure CondaOracle where
  /-- `CondaEnvironment.enabled_for_step(step_name)`. -/
  enabledForStep : String → Bool
  /-- `self._env.get_env_id_noconda(step_name)`. -/
  getEnvIdNoconda : String → EnvIdResult
  /-- `self._env.resolve_fetch_at_exec_env(step_name, env_for_fetch)`. -/
  resolveFetchAtExecEnv : String → StrDict → Option EnvID
  /-- `conda.created_environment(env_id)`: `None`, or a pair whose second
  component is the environment directory (the source uses index `[1]`). -/
  createdEnvironment : EnvID → Option (String × String)
  /-- `conda.environment(env_id)`: the resolved environment, kept abstract. -/
  environment : EnvID → Option String
  /-- `conda.create_for_step(step_name, resolved_env)`: the directory of the
  freshly created environment. -/
  createForStep : String → String → String
  /-- `str(param.load_parameter(parent_ds[var]))` for parameter `var`, where
  the parent datastore is addressed by the run id, step name and task id
  parsed from `input_paths[0]`. -/
  loadParameter : String → String → String → String → String
  /-- the parameter names yielded by `self._flow._get_parameters()`. -/
  flowParams : List String
  /-- `get_metaflow_root()`. -/
  metaflowRoot : String
  /-- `json.dumps(self._env.get_environment_info(include_ext_info=True))`. -/
  envInfoJson : String
  /-- `importlib.import_module(EXT_PKG).__path__` (`none` on `ImportError`). -/
  extPkgPaths : Option (List String)
  /-- files written under `self._metaflow_home` by `generate_trampolines`,
  as (relative name, content) pairs. -/
  trampolines : List (String × String)
  /-- `arch_id()`. -/
  archId : String
  /-- `metaflow_config.CONDA_REMOTE_COMMANDS`. -/
  condaRemoteCommands : List String

/-- The mutable attributes of `CondaEnvInternalDecorator` that the embedded
hooks read or write (`self._step_name`, `self._is_remote`,
`self._env_for_fetch`, `self._env_id`, `self._metaflow_home`,
`self._addl_paths`). -/
structure DecoratorState where
  stepName : String
  isRemote : Bool
  envForFetch : StrDict
  envId : Option EnvID
  metaflowHome : String
  addlPaths : Option (List String)
deriving DecidableEq, Repr

/-- `CondaEnvInternalDecorator._is_enabled(ubf_context=None)`: `False` for a
UBF control task, otherwise `CondaEnvironment.enabled_for_step(step_name)`
(the latter supplied by the oracle). -/
def _is_enabled (enabledForStep : Bool) (ubf_context : Option String) : Bool :=
  if ubf_context = some UBF_CONTROL then false else enabledForStep

/-- `CondaEnvInternalDecorator._is_fetch_at_exec(ubf_context=None)`:
the body is literally `return False`. -/
def _is_fetch_at_exec (ubf_context : Option String) : Bool :=
  false

/-- `PackageRequirementStepDecorator.step_init`: raise
`InvalidEnvironmentException` unless `environment.TYPE == "conda"`; it
touches no other state, so the ambient environment is returned unchanged.
`decoratorName` is `self.name` (used in the message). -/
def packageReq_step_init (decoratorName : String) (envType : String)
    (osEnv : StrDict) : Except PyError StrDict :=
  if envType ≠ "conda" then
    .error (.invalidEnvironment
      ("The *@" ++ decoratorName ++ "* decorator requires --environment=conda"))
  else
    .ok osEnv

/-- `CondaRequirementStepDecorator` (`@conda`) defines no `step_init` of its
own (in this source it only sets `name = "conda"`), so it inherits
`PackageRequirementStepDecorator.step_init`. -/
def conda_step_init (envType : String) (osEnv : StrDict) :
    Except PyError StrDict :=
  packageReq_step_init "conda" envType osEnv

/-- `PypiRequirementStepDecorator` (`@pypi`) defines no `step_init` of its
own (in this source it only sets `name = "pypi"`), so it inherits
`PackageRequirementStepDecorator.step_init`. -/
def pypi_step_init (envType : String) (osEnv : StrDict) :
    Except PyError StrDict :=
  packageReq_step_init "pypi" envType osEnv

/-- `CondaEnvInternalDecorator.step_init`: records the step name, computes
`self._is_remote` from the other decorators' names, initialises
`_env_for_fetch` / `_env_id`, and sets `os.environ["PYTHONNOUSERSITE"]`
to `"1"`. -/
def step_init (o : CondaOracle) (step_name : String)
    (decoratorNames : List String) (osEnv : StrDict) :
    DecoratorState × StrDict :=
  ({ stepName := step_name
     isRemote := decoratorNames.any (fun d => o.condaRemoteCommands.contains d)
     envForFetch := []
     envId := none
     metaflowHome := ""
     addlPaths := none },
   dictSet osEnv "PYTHONNOUSERSITE" "1")

/-- The three `self._env_for_fetch[...] = ...` assignments performed by the
fetch-at-exec block of `runtime_init`. -/
def initFetchRecord (m : StrDict) (run_id step_name : String) : StrDict :=
  dictSet (dictSet (dictSet m "METAFLOW_RUN_ID" run_id)
    "METAFLOW_RUN_ID_BASE" run_id) "METAFLOW_STEP_NAME" step_name

/-- The `self._env_for_fetch[...] = ...` assignments performed by the
fetch-at-exec branch of `runtime_task_created`: one `METAFLOW_INIT_*` entry
per flow parameter (its value loaded from the parent task datastore,
addressed by the components of `input_paths[0]`) followed by
`METAFLOW_TASK_ID` (note: the Python tuple assignment
`run_id, step_name, task_id = input_paths[0].split("/")` rebinds `task_id`,
so the recorded task id is the one parsed from `input_paths[0]`). -/
def taskFetchRecord (o : CondaOracle) (m : StrDict)
    (run_id step_name task_id : String) : StrDict :=
  dictSet
    (o.flowParams.foldl
      (fun acc var =>
        dictSet acc (initVarKey var)
          (o.loadParameter run_id step_name task_id var))
      m)
    "METAFLOW_TASK_ID" task_id

/-- Body of `CondaEnvInternalDecorator.runtime_task_created`, with the value
returned by `self._is_fetch_at_exec(ubf_context)` factored out as the
explicit `fetch` argument (in this source it is always `False`, see
`_is_fetch_at_exec`). -/
def runtime_task_created_gen (o : CondaOracle) (fetch : Bool)
    (s : DecoratorState) (task_id : String) (input_paths : List String)
    (ubf_context : String) : Except PyError DecoratorState :=
  if _is_enabled (o.enabledForStep s.stepName) (some ubf_context) then
    if fetch then
      match input_paths with
      | [] => .error .indexError
      | p0 :: _ =>
        match splitSlash p0 with
        | [run_id, step_name, task_id] =>
          let envForFetch :=
            taskFetchRecord o s.envForFetch run_id step_name task_id
          match o.resolveFetchAtExecEnv s.stepName envForFetch with
          | some e => .ok { s with envForFetch := envForFetch, envId := some e }
          | none =>
            .error (.invalidEnvironment
              "Cannot find the environment ID for a fetch-at-exec step")
        | _ => .error .valueError
    else
      match o.getEnvIdNoconda s.stepName with
      | .envid t => .ok { s with envId := some t }
      | .other t =>
        .error (.invalidEnvironment
          ("Unexpected ID for the Conda environment for step " ++ s.stepName
            ++ ": " ++ t))
  else
    .ok s

/-- `CondaEnvInternalDecorator.runtime_task_created`. -/
def runtime_task_created (o : CondaOracle) (s : DecoratorState)
    (task_id : String) (input_paths : List String) (ubf_context : String) :
    Except PyError DecoratorState :=
  runtime_task_created_gen o (_is_fetch_at_exec (some ubf_context)) s
    task_id input_paths ubf_context

/-- The `cli_args` object mutated by `runtime_step_cli`: an argv list and an
environment dict for the child process. -/
structure CliArgs where
  entrypoint : List String
  env : StrDict
deriving DecidableEq, Repr

/-- Side effects `runtime_step_cli` performs through the `Conda`
collaborator: the only mutating call is `conda.create_for_step`. -/
inductive CondaEffect where
  | createForStep (step_name : String)
deriving DecidableEq, Repr

/-- Result of `runtime_step_cli`: the updated `cli_args` plus the trace of
environment-creating collaborator calls. -/
structure StepCliResult where
  cliArgs : CliArgs
  effects : List CondaEffect
deriving DecidableEq, Repr

/-- `cli_args.entrypoint[0] = v` (the entrypoint list is non-empty in any
real invocation; an empty list would raise in Python and is mapped to
itself here, which no theorem relies on). -/
def setEntry0 (l : List String) (v : String) : List String :=
  match l with
  | [] => []
  | _ :: t => v :: t

/-- The `python_path` computed by `runtime_step_cli`: the temporary metaflow
home, prepended (when present) by the joined `self._addl_paths`. -/
def pythonPathOf (s : DecoratorState) : String :=
  match s.addlPaths with
  | none => s.metaflowHome
  | some ps => String.intercalate ":" ps ++ ":" ++ s.metaflowHome

/-- The effect on `cli_args.env` of the tail of `runtime_step_cli`: set
`PYTHONPATH` to the temporary metaflow home (prepending the joined
`self._addl_paths` when present), then on Linux, when the parent process
exports a non-empty `LD_LIBRARY_PATH`, splice the environment's `lib`
directory in front of it. -/
def stepCliEnv (o : CondaOracle) (s : DecoratorState) (osEnv : StrDict)
    (env : StrDict) (entrypoint : String) : StrDict :=
  let env := dictSet env "PYTHONPATH" (pythonPathOf s)
  if strStarts "linux" o.archId then
    match dictGet osEnv "LD_LIBRARY_PATH" with
    | some old_ld_path =>
      if old_ld_path ≠ "" then
        dictSet env "LD_LIBRARY_PATH"
          (dirname (dirname entrypoint) ++ "/lib" ++ ":" ++ old_ld_path)
      else env
    | none => env
  else env

/-- The tail of `runtime_step_cli` after an entrypoint has been determined:
apply `stepCliEnv` to `cli_args.env` and point `cli_args.entrypoint[0]` at
the environment's python (the two touch disjoint parts of `cli_args`, so
they are composed here in one step). -/
def stepCliFinish (o : CondaOracle) (s : DecoratorState) (osEnv : StrDict)
    (cliArgs : CliArgs) (entrypoint : String) : StepCliResult :=
  ⟨⟨setEntry0 cliArgs.entrypoint entrypoint,
    stepCliEnv o s osEnv cliArgs.env entrypoint⟩, []⟩

/-- Body of `CondaEnvInternalDecorator.runtime_step_cli`, with the value of
`self._is_fetch_at_exec(ubf_context)` factored out as `fetch` (always
`False` in this source).  Exports `_METAFLOW_CONDA_ENV` whenever the step
is enabled for a plain UBF task or is fetch-at-exec; returns early (no
local environment creation) when remote or not enabled for the actual
`ubf_context`; otherwise reuses the already-created environment or creates
one via `conda.create_for_step`, then finishes with `stepCliFinish`. -/
def runtime_step_cli_gen (o : CondaOracle) (fetch : Bool)
    (s : DecoratorState) (osEnv : StrDict) (cliArgs : CliArgs)
    (ubf_context : String) : Except PyError StepCliResult :=
  if _is_enabled (o.enabledForStep s.stepName) (some UBF_TASK) || fetch then
    let cliArgs := { cliArgs with
      env := dictSet cliArgs.env "_METAFLOW_CONDA_ENV" (jsonDumpsEnvId s.envId) }
    if s.isRemote
        || !(_is_enabled (o.enabledForStep s.stepName) (some ubf_context)) then
      .ok ⟨cliArgs, []⟩
    else
      match s.envId with
      | none => .error .assertionError
      | some env_id =>
        match o.createdEnvironment env_id with
        | some existing_env_info =>
          let entrypoint := existing_env_info.2 ++ "/bin/python"
          .ok (stepCliFinish o s osEnv cliArgs entrypoint)
        | none =>
          match o.environment env_id with
          | some resolved_env =>
            let entrypoint :=
              o.createForStep s.stepName resolved_env ++ "/bin/python"
            .ok { stepCliFinish o s osEnv cliArgs entrypoint with
              effects := [.createForStep s.stepName] }
          | none =>
            .error (.invalidEnvironment "Cannot create environment")
  else
    .ok ⟨cliArgs, []⟩

/-- `CondaEnvInternalDecorator.runtime_step_cli`. -/
def runtime_step_cli (o : CondaOracle) (s : DecoratorState) (osEnv : StrDict)
    (cliArgs : CliArgs) (ubf_context : String) : Except PyError StepCliResult :=
  runtime_step_cli_gen o (_is_fetch_at_exec (some ubf_context)) s osEnv
    cliArgs ubf_context

/-- `metaflow.metadata.MetaDatum` as registered by `task_pre_step`. -/
structure MetaDatum where
  field : String
  value : String
  type : String
  tags : List String
deriving DecidableEq, Repr

/-- The `os.environ["PATH"]` mutation performed by `task_pre_step`: prepend
the directory of `os.path.realpath(sys.executable)`, keeping the old value
as a suffix when one exists. -/
def taskPreStepEnv (sysExecutableRealpath : String) (osEnv : StrDict) :
    StrDict :=
  dictSet osEnv "PATH"
    (match dictGet osEnv "PATH" with
     | some old => dirname sysExecutableRealpath ++ ":" ++ old
     | none => dirname sysExecutableRealpath)

/-- `CondaEnvInternalDecorator.task_pre_step`: when enabled, mutate
`os.environ["PATH"]` via `taskPreStepEnv` and register a `conda_env_id`
`MetaDatum` carrying `os.environ["_METAFLOW_CONDA_ENV"]`, tagged with the
retry count.  Returns the final `os.environ` (mutated in place by Python
even if the subsequent `os.environ["_METAFLOW_CONDA_ENV"]` read raises
`KeyError`) together with the metadata registered via
`metadata.register_metadata`. -/
def task_pre_step (o : CondaOracle) (s : DecoratorState)
    (sysExecutableRealpath : String) (osEnv : StrDict)
    (retry_count : Nat) (ubf_context : String) :
    StrDict × Except PyError (List MetaDatum) :=
  if _is_enabled (o.enabledForStep s.stepName) (some ubf_context) then
    (taskPreStepEnv sysExecutableRealpath osEnv,
     match dictGet (taskPreStepEnv sysExecutableRealpath osEnv)
         "_METAFLOW_CONDA_ENV" with
     | some v =>
       .ok [{ field := "conda_env_id", value := v, type := "conda_env_id"
              tags := ["attempt_id:" ++ toString retry_count] }]
     | none => .error (.keyError "_METAFLOW_CONDA_ENV"))
  else
    (osEnv, .ok [])

/-- A filesystem object created by the embedded code. -/
inductive FSEntry where
  | file (content : String)
  | symlink (target : String)
  | dir
deriving DecidableEq, Repr

/-- The filesystem as a list of (absolute path, entry) pairs in creation
order; lookup returns the first match. -/
abbrev FS := List (String × FSEntry)

/-- Look up the entry at a path. -/
def fsLookup (fs : FS) (p : String) : Option FSEntry :=
  match fs with
  | [] => none
  | (q, e) :: rest => if q = p then some e else fsLookup rest p

/-- `os.path.isfile` (symlinks are not resolved in this model; the INFO file
at the metaflow root is a regular file when present). -/
def fsIsFile (fs : FS) (p : String) : Bool :=
  match fsLookup fs p with
  | some (.file _) => true
  | _ => false

/-- The `EXT_PKG` links created by `runtime_init`, together with the value
left in `self._addl_paths`: nothing on `ImportError`; a single symlink
`home/EXT_PKG` for a regular package (a deduplicated one-element
`__path__`); for a namespace package, one fresh directory per path, each
holding an `EXT_PKG` symlink, and `self._addl_paths` set to those
directories. -/
def extPkgEntries (o : CondaOracle) (home : String)
    (extTmpNames : Nat → String) : Option (List String) × FS :=
  match o.extPkgPaths with
  | none => (none, [])
  | some paths =>
    let custom_paths := paths.dedup
    if custom_paths.length = 1 then
      (none,
       [(home ++ "/" ++ EXT_PKG, FSEntry.symlink (custom_paths.headD ""))])
    else
      let dirs := (List.range custom_paths.length).map
        (fun i => home ++ "/" ++ extTmpNames i)
      (some dirs,
       (custom_paths.zip dirs).flatMap
         (fun pd => [(pd.2, FSEntry.dir),
                     (pd.2 ++ "/" ++ EXT_PKG, FSEntry.symlink pd.1)]))

/-- All filesystem entries created by `runtime_init`, in creation order:
the fresh home directory, the `metaflow` symlink, the `INFO` symlink (when
`os.path.isfile` holds for the root `INFO` at that point) or freshly
written `INFO` file, the `EXT_PKG` links, and the trampoline files. -/
def runtime_init_adds (o : CondaOracle) (fs : FS) (home : String)
    (extTmpNames : Nat → String) : FS :=
  [(home, FSEntry.dir),
   (home ++ "/metaflow", FSEntry.symlink (o.metaflowRoot ++ "/metaflow")),
   (home ++ "/INFO",
    if fsIsFile
        (fs ++ [(home, FSEntry.dir),
                (home ++ "/metaflow",
                 FSEntry.symlink (o.metaflowRoot ++ "/metaflow"))])
        (o.metaflowRoot ++ "/INFO")
    then FSEntry.symlink (o.metaflowRoot ++ "/INFO")
    else FSEntry.file o.envInfoJson)]
  ++ (extPkgEntries o home extTmpNames).2
  ++ o.trampolines.map (fun nc => (home ++ "/" ++ nc.1, FSEntry.file nc.2))

/-- Body of `CondaEnvInternalDecorator.runtime_init`, with the value of
`self._is_fetch_at_exec()` factored out as `fetch` (always `False` in this
source).  `tmpName` is the fresh name chosen by `tempfile.mkdtemp(dir="/tmp")`
and `extTmpNames i` the fresh name of the `i`-th `mkdtemp(dir=home)` used
for namespace-package paths.  Appends `runtime_init_adds` to the
filesystem and, when enabled and fetch-at-exec, records the run id and the
step name in `self._env_for_fetch`. -/
def runtime_init_gen (o : CondaOracle) (fetch : Bool) (s : DecoratorState)
    (fs : FS) (tmpName : String) (extTmpNames : Nat → String)
    (run_id : String) : DecoratorState × FS :=
  let home := "/tmp/" ++ tmpName
  let envForFetch :=
    if _is_enabled (o.enabledForStep s.stepName) none && fetch then
      initFetchRecord s.envForFetch run_id s.stepName
    else s.envForFetch
  ({ s with metaflowHome := home
            addlPaths := (extPkgEntries o home extTmpNames).1
            envForFetch := envForFetch },
   fs ++ runtime_init_adds o fs home extTmpNames)

/-- `CondaEnvInternalDecorator.runtime_init`. -/
def runtime_init (o : CondaOracle) (s : DecoratorState) (fs : FS)
    (tmpName : String) (extTmpNames : Nat → String) (run_id : String) :
    DecoratorState × FS :=
  runtime_init_gen o (_is_fetch_at_exec none) s fs tmpName extTmpNames run_id

/-- `CondaEnvInternalDecorator.runtime_finished`:
`shutil.rmtree(self._metaflow_home)` removes the home directory and
everything beneath it. -/
def runtime_finished (s : DecoratorState) (fs : FS) : FS :=
  fs.filter
    (fun e => !(e.1 == s.metaflowHome || strStarts (s.metaflowHome ++ "/") e.1))

/-! ### Basic lemmas about the dictionary, string and filesystem helpers -/

theorem dictGet_dictSet_self (m : StrDict) (k v : String) :
    dictGet (dictSet m k v) k = some v := by
  induction m with
  | nil => simp [dictSet, dictGet]
  | cons hd t ih =>
    obtain ⟨a, b⟩ := hd
    by_cases hk : a = k
    · simp [dictSet, dictGet, hk]
    · simp [dictSet, dictGet, hk, ih]

theorem dictGet_dictSet_ne (m : StrDict) (k v k2 : String) (h : k2 ≠ k) :
    dictGet (dictSet m k v) k2 = dictGet m k2 := by
  induction m with
  | nil => simp [dictSet, dictGet, Ne.symm h]
  | cons hd t ih =>
    obtain ⟨a, b⟩ := hd
    by_cases h1 : a = k
    · subst h1
      simp [dictSet, dictGet, Ne.symm h]
    · by_cases h2 : a = k2 <;> simp [dictSet, dictGet, h1, h2, h, ih]

theorem strStarts_append_self (p r : String) : strStarts p (p ++ r) = true := by
  simp [strStarts, String.data_append, List.take_left]

theorem string_append_right_cancel {s a b : String} (h : s ++ a = s ++ b) :
    a = b := by
  have hd := congrArg String.data h
  simp only [String.data_append] at hd
  exact String.ext (List.append_cancel_left hd)

theorem string_ne_append {s t : String} (h : t ≠ "") : s ++ t ≠ s := by
  intro he
  apply h
  have hd := congrArg String.data he
  simp only [String.data_append] at hd
  have : t.data = [] := by
    have hl := congrArg List.length hd
    simp at hl
    exact List.eq_nil_of_length_eq_zero hl
  exact String.ext this

theorem fsLookup_append (fs₁ fs₂ : FS) (p : String) :
    fsLookup (fs₁ ++ fs₂) p =
      ((fsLookup fs₁ p).rec (fsLookup fs₂ p) (fun e => some e) :
        Option FSEntry) := by
  induction fs₁ with
  | nil => simp [fsLookup]
  | cons hd t ih =>
    obtain ⟨q, e⟩ := hd
    by_cases hq : q = p <;> simp [fsLookup, hq, ih]

theorem fsLookup_eq_none (fs : FS) (p : String) (h : ∀ e ∈ fs, e.1 ≠ p) :
    fsLookup fs p = none := by
  induction fs with
  | nil => rfl
  | cons hd t ih =>
    obtain ⟨q, e⟩ := hd
    have hq : q ≠ p := h (q, e) (by simp)
    simp only [fsLookup, hq, if_false]
    exact ih (fun x hx => h x (by simp [hx]))

/-- A helper used by a `task_pre_step` claim: the final `os.environ` is the
input with `PATH` overwritten exactly when the step is enabled. -/
theorem task_pre_step_fst (o : CondaOracle) (s : DecoratorState)
    (exe : String) (osEnv : StrDict) (rc : Nat) (ubf : String) :
    (task_pre_step o s exe osEnv rc ubf).1 =
      if _is_enabled (o.enabledForStep s.stepName) (some ubf) then
        taskPreStepEnv exe osEnv
      else osEnv := by
  unfold task_pre_step
  split <;> rfl

/-- What `stepCliEnv` does to the child environment: a definite
`PYTHONPATH`, possibly `LD_LIBRARY_PATH`, and nothing else. -/
theorem stepCliEnv_get (o : CondaOracle) (s : DecoratorState)
    (osEnv env : StrDict) (entry : String) :
    dictGet (stepCliEnv o s osEnv env entry) "PYTHONPATH"
        = some (pythonPathOf s)
    ∧ (∀ k, k ≠ "PYTHONPATH" → k ≠ "LD_LIBRARY_PATH" →
        dictGet (stepCliEnv o s osEnv env entry) k = dictGet env k) := by
  unfold stepCliEnv
  by_cases ha : strStarts "linux" o.archId
  · rw [if_pos ha]
    split
    · split
      · constructor
        · rw [dictGet_dictSet_ne _ _ _ _ (by decide)]
          exact dictGet_dictSet_self _ _ _
        · intro k h1 h2
          rw [dictGet_dictSet_ne _ _ _ _ h2, dictGet_dictSet_ne _ _ _ _ h1]
      · exact ⟨dictGet_dictSet_self _ _ _,
          fun k h1 h2 => dictGet_dictSet_ne _ _ _ _ h1⟩
    · exact ⟨dictGet_dictSet_self _ _ _,
        fun k h1 h2 => dictGet_dictSet_ne _ _ _ _ h1⟩
  · rw [if_neg ha]
    exact ⟨dictGet_dictSet_self _ _ _,
      fun k h1 h2 => dictGet_dictSet_ne _ _ _ _ h1⟩

theorem fsLookup_append_some (fs₁ fs₂ : FS) (p : String) (e : FSEntry)
    (h : fsLookup fs₁ p = some e) : fsLookup (fs₁ ++ fs₂) p = some e := by
  rw [fsLookup_append, h]

theorem fsLookup_append_none (fs₁ fs₂ : FS) (p : String)
    (h : fsLookup fs₁ p = none) : fsLookup (fs₁ ++ fs₂) p = fsLookup fs₂ p := by
  rw [fsLookup_append, h]

theorem fsLookup_append_irrel (fs₁ fs₂ : FS) (p : String)
    (h : ∀ ent ∈ fs₂, ent.1 ≠ p) :
    fsLookup (fs₁ ++ fs₂) p = fsLookup fs₁ p := by
  rw [fsLookup_append, fsLookup_eq_none fs₂ p h]
  cases fsLookup fs₁ p <;> rfl

theorem strStarts_of_data (pre : String) (rest : List Char) (x : String)
    (h : x.data = pre.data ++ rest) : strStarts pre x = true := by
  simp [strStarts, h, List.take_left]

theorem home_slash (home a b : String) (h : a = "/" ++ b) :
    home ++ a = (home ++ "/") ++ b := by
  rw [h, ← String.append_assoc]

theorem strStarts_slash (home a b : String) (h : a = "/" ++ b) :
    strStarts (home ++ "/") (home ++ a) = true := by
  rw [home_slash home a b h]
  exact strStarts_append_self _ _

theorem ne_of_not_under {pre x : String} (h : strStarts pre x = false)
    (y : String) : x ≠ pre ++ y := by
  intro he
  rw [he, strStarts_append_self] at h
  exact Bool.noConfusion h

/-- Every `EXT_PKG` entry lives strictly below the home directory. -/
theorem extPkgEntries_under (o : CondaOracle) (home : String)
    (etn : Nat → String) :
    ∀ ent ∈ (extPkgEntries o home etn).2,
      strStarts (home ++ "/") ent.1 = true := by
  intro ent hent
  unfold extPkgEntries at hent
  cases hpaths : o.extPkgPaths with
  | none =>
    simp only [hpaths] at hent
    cases hent
  | some paths =>
    by_cases hlen : paths.dedup.length = 1
    · simp [hpaths, hlen] at hent
      subst hent
      exact strStarts_append_self _ _
    · simp only [hpaths, hlen, if_false] at hent
      rw [List.mem_flatMap] at hent
      obtain ⟨pd, hpd, hm⟩ := hent
      have h2 := (List.of_mem_zip hpd).2
      rw [List.mem_map] at h2
      obtain ⟨i, _, heq⟩ := h2
      simp only [List.mem_cons, List.not_mem_nil, or_false] at hm
      rcases hm with h | h
      · subst h
        rw [← heq]
        exact strStarts_append_self _ _
      · subst h
        rw [← heq]
        exact strStarts_of_data (home ++ "/")
          ((etn i).data ++ ("/".data ++ EXT_PKG.data)) _
          (by simp [String.data_append, List.append_assoc])

/-- Every entry created by `runtime_init` is the home directory itself or
lives strictly below it. -/
theorem runtime_init_adds_under (o : CondaOracle) (fs : FS) (home : String)
    (etn : Nat → String) :
    ∀ ent ∈ runtime_init_adds o fs home etn,
      ent.1 = home ∨ strStarts (home ++ "/") ent.1 = true := by
  intro ent hent
  unfold runtime_init_adds at hent
  simp only [List.mem_append, List.mem_cons, List.not_mem_nil, or_false]
    at hent
  rcases hent with ((h | h | h) | h) | h
  · subst h; exact Or.inl rfl
  · subst h; exact Or.inr (strStarts_slash _ _ "metaflow" (by decide))
  · subst h; exact Or.inr (strStarts_slash _ _ "INFO" (by decide))
  · exact Or.inr (extPkgEntries_under o home etn ent h)
  · rw [List.mem_map] at h
    obtain ⟨nc, _, heq⟩ := h
    rw [← heq]
    exact Or.inr (strStarts_append_self _ _)

/-- The three keys recorded by the fetch-at-exec block of `runtime_init`. -/
theorem initFetchRecord_get (m : StrDict) (rid st : String) :
    dictGet (initFetchRecord m rid st) "METAFLOW_RUN_ID" = some rid
    ∧ dictGet (initFetchRecord m rid st) "METAFLOW_RUN_ID_BASE" = some rid
    ∧ dictGet (initFetchRecord m rid st) "METAFLOW_STEP_NAME" = some st := by
  unfold initFetchRecord
  refine ⟨?_, ?_, ?_⟩
  · rw [dictGet_dictSet_ne _ _ _ _ (by decide),
      dictGet_dictSet_ne _ _ _ _ (by decide), dictGet_dictSet_self]
  · rw [dictGet_dictSet_ne _ _ _ _ (by decide), dictGet_dictSet_self]
  · rw [dictGet_dictSet_self]

/-- Folding assignments over keys that all avoid `k` leaves `k` alone. -/
theorem foldl_dictSet_get_notmem (f g : String → String) (l : List String)
    (m : StrDict) (k : String) (hk : ∀ v ∈ l, f v ≠ k) :
    dictGet (l.foldl (fun acc v => dictSet acc (f v) (g v)) m) k
      = dictGet m k := by
  induction l generalizing m with
  | nil => rfl
  | cons a t ih =>
    rw [List.foldl_cons, ih _ (fun v hv => hk v (List.mem_cons_of_mem a hv)),
      dictGet_dictSet_ne _ _ _ _ (Ne.symm (hk a (List.mem_cons_self a t)))]

/-- Folding assignments with pairwise distinct keys: each member's key maps
to its own value. -/
theorem foldl_dictSet_get (f g : String → String) (l : List String)
    (m : StrDict) (var : String) (hv : var ∈ l)
    (hnodup : (l.map f).Nodup) :
    dictGet (l.foldl (fun acc v => dictSet acc (f v) (g v)) m) (f var)
      = some (g var) := by
  induction l generalizing m with
  | nil => cases hv
  | cons a t ih =>
    rw [List.map_cons, List.nodup_cons] at hnodup
    rw [List.foldl_cons]
    rcases List.mem_cons.mp hv with h | h
    · subst h
      have hne : ∀ v ∈ t, f v ≠ f var := by
        intro v hvt heq
        exact hnodup.1 (heq ▸ List.mem_map_of_mem f hvt)
      rw [foldl_dictSet_get_notmem f g t _ (f var) hne, dictGet_dictSet_self]
    · exact ih _ h hnodup.2

/-- Parameter keys all carry the `METAFLOW_INIT_` marker, so none collides
with `METAFLOW_TASK_ID`. -/
theorem initVarKey_ne_task_id (var : String) :
    initVarKey var ≠ "METAFLOW_TASK_ID" := by
  intro h
  have h2 := congrArg
    (fun s : String => s.data.take ("METAFLOW_INIT_" : String).data.length) h
  simp only [initVarKey, String.data_append, List.take_left] at h2
  exact absurd h2 (by decide)

/-- The keys recorded by the fetch-at-exec branch of
`runtime_task_created`. -/
theorem taskFetchRecord_get (o : CondaOracle) (m : StrDict)
    (rid st tid : String)
    (hnodup : (o.flowParams.map initVarKey).Nodup) :
    dictGet (taskFetchRecord o m rid st tid) "METAFLOW_TASK_ID" = some tid
    ∧ ∀ var ∈ o.flowParams,
        dictGet (taskFetchRecord o m rid st tid) (initVarKey var)
          = some (o.loadParameter rid st tid var) := by
  unfold taskFetchRecord
  constructor
  · exact dictGet_dictSet_self _ _ _
  · intro var hvar
    rw [dictGet_dictSet_ne _ _ _ _ (initVarKey_ne_task_id var)]
    exact foldl_dictSet_get initVarKey
      (fun v => o.loadParameter rid st tid v) o.flowParams m var hvar hnodup

/-- Successful evaluation of the fetch-at-exec branch of
`runtime_task_created_gen`. -/
theorem runtime_task_created_gen_fetch (o : CondaOracle) (s : DecoratorState)
    (task_id p0 : String) (rest : List String) (ubf : String)
    (run0 step0 tid0 : String) (e : EnvID)
    (hen : _is_enabled (o.enabledForStep s.stepName) (some ubf) = true)
    (hsplit : splitSlash p0 = [run0, step0, tid0])
    (hres : o.resolveFetchAtExecEnv s.stepName
        (taskFetchRecord o s.envForFetch run0 step0 tid0) = some e) :
    runtime_task_created_gen o true s task_id (p0 :: rest) ubf =
      .ok { s with
        envForFetch := taskFetchRecord o s.envForFetch run0 step0 tid0
        envId := some e } := by
  unfold runtime_task_created_gen
  rw [if_pos hen]
  simp [hsplit, hres]

/-- Evaluation of `runtime_step_cli_gen` when the export guard holds, the
early return is not taken and an environment ID is present. -/
theorem runtime_step_cli_gen_run (o : CondaOracle) (fetch : Bool)
    (s : DecoratorState) (osEnv : StrDict) (cliArgs : CliArgs) (ubf : String)
    (e : EnvID)
    (hg : (_is_enabled (o.enabledForStep s.stepName) (some UBF_TASK)
        || fetch) = true)
    (hskip : (s.isRemote
        || !(_is_enabled (o.enabledForStep s.stepName) (some ubf))) = false)
    (henv : s.envId = some e) :
    runtime_step_cli_gen o fetch s osEnv cliArgs ubf =
      match o.createdEnvironment e with
      | some info =>
        .ok (stepCliFinish o s osEnv
          { cliArgs with env := (dictSet cliArgs.env "_METAFLOW_CONDA_ENV"
              (jsonDumpsEnvId (some e))) }
          (info.2 ++ "/bin/python"))
      | none =>
        match o.environment e with
        | some res =>
          .ok { stepCliFinish o s osEnv
              { cliArgs with env := (dictSet cliArgs.env "_METAFLOW_CONDA_ENV"
                  (jsonDumpsEnvId (some e))) }
              (o.createForStep s.stepName res ++ "/bin/python") with
            effects := [.createForStep s.stepName] }
        | none => .error (.invalidEnvironment "Cannot create environment") := by
  unfold runtime_step_cli_gen
  rw [if_pos hg, if_neg (by simp [hskip]), henv]

/-! ### Fixtures used by the witness theorems -/

/-- A concrete instantiation of the external collaborators. -/
def sampleOracle : CondaOracle where
  enabledForStep := fun _ => true
  getEnvIdNoconda := fun _ => .envid ⟨"req1", "full1", "linux-64"⟩
  resolveFetchAtExecEnv := fun _ m =>
    if (dictGet m "METAFLOW_TASK_ID").isSome then
      some ⟨"req1", "full1", "linux-64"⟩
    else none
  createdEnvironment := fun _ => some ("id1", "/envs/e1")
  environment := fun _ => some "resolved1"
  createForStep := fun _ _ => "/envs/new1"
  loadParameter := fun _ _ _ v => "value-of-" ++ v
  flowParams := ["alpha"]
  metaflowRoot := "/opt/mf"
  envInfoJson := "env-info-json"
  extPkgPaths := none
  trampolines := []
  archId := "linux-64"
  condaRemoteCommands := ["batch", "kubernetes"]

/-- A concrete decorator state as left by `step_init` + `runtime_init` +
`runtime_task_created` for a local, enabled step. -/
def sampleState : DecoratorState where
  stepName := "train"
  isRemote := false
  envForFetch := []
  envId := some ⟨"req1", "full1", "linux-64"⟩
  metaflowHome := "/tmp/mfhome"
  addlPaths := none

/-- `sampleState` with `self._is_remote` set, as for a remote step. -/
def sampleRemoteState : DecoratorState :=
  { sampleState with isRemote := true }

/-! ### The claims -/

/-- C10: `PackageRequirementStepDecorator.step_init` raises
`InvalidEnvironmentException` if and only if `environment.TYPE` is not
`"conda"`; the `@conda` and `@pypi` subclasses inherit exactly this
`step_init`, and in the non-raising case everything is left unchanged. -/
theorem C10_package_req_guard (decoratorName envType : String)
    (osEnv : StrDict) :
    ((∃ msg, packageReq_step_init decoratorName envType osEnv =
        .error (.invalidEnvironment msg)) ↔ envType ≠ "conda")
    ∧ (envType = "conda" →
        packageReq_step_init decoratorName envType osEnv = .ok osEnv)
    ∧ conda_step_init envType osEnv = packageReq_step_init "conda" envType osEnv
    ∧ pypi_step_init envType osEnv = packageReq_step_init "pypi" envType osEnv := by
  by_cases h : envType = "conda" <;>
    simp [packageReq_step_init, conda_step_init, pypi_step_init, h]

/-- Witness for C10 at a concrete input. -/
theorem C10_package_req_guard_witness :
    packageReq_step_init "conda" "conda" [("A", "B")] = .ok [("A", "B")] :=
  (C10_package_req_guard "conda" "conda" [("A", "B")]).2.1 rfl

/-- C9: the decorator mutates the parent process environment itself:
`step_init` unconditionally sets `os.environ["PYTHONNOUSERSITE"] = "1"`,
and `task_pre_step` (when enabled) prepends the directory of the resolved
`sys.executable` to `os.environ["PATH"]`, keeping the previous `PATH`
value as a suffix when one exists. -/
theorem C9_parent_process_env (o : CondaOracle) (step_name : String)
    (decoratorNames : List String) (osEnv osEnv2 : StrDict)
    (s : DecoratorState) (exe : String) (rc : Nat) (ubf : String)
    (hen : _is_enabled (o.enabledForStep s.stepName) (some ubf) = true) :
    dictGet (step_init o step_name decoratorNames osEnv).2 "PYTHONNOUSERSITE"
      = some "1"
    ∧ (∀ old, dictGet osEnv2 "PATH" = some old →
        dictGet (task_pre_step o s exe osEnv2 rc ubf).1 "PATH"
          = some (dirname exe ++ ":" ++ old))
    ∧ (dictGet osEnv2 "PATH" = none →
        dictGet (task_pre_step o s exe osEnv2 rc ubf).1 "PATH"
          = some (dirname exe)) := by
  refine ⟨by simp [step_init, dictGet_dictSet_self], ?_, ?_⟩
  · intro old hold
    rw [task_pre_step_fst, if_pos hen]
    unfold taskPreStepEnv
    rw [hold, dictGet_dictSet_self]
  · intro hnone
    rw [task_pre_step_fst, if_pos hen]
    unfold taskPreStepEnv
    rw [hnone, dictGet_dictSet_self]

/-- Witness for C9 at a concrete input. -/
theorem C9_parent_process_env_witness :
    dictGet (task_pre_step sampleOracle sampleState "/envs/e1/bin/python"
        [("PATH", "/usr/bin"), ("_METAFLOW_CONDA_ENV", "null")] 0 UBF_TASK).1
        "PATH"
      = some (dirname "/envs/e1/bin/python" ++ ":" ++ "/usr/bin") :=
  (C9_parent_process_env sampleOracle "train" [] []
      [("PATH", "/usr/bin"), ("_METAFLOW_CONDA_ENV", "null")]
      sampleState "/envs/e1/bin/python" 0 UBF_TASK (by decide)).2.1
    "/usr/bin" (by decide)

/-- C3: `_is_enabled` returns `False` whenever `ubf_context` is
`UBF_CONTROL`, and consequently `runtime_step_cli` for a control task never
performs an environment-creating collaborator call (it returns successfully
with an empty effect trace, whatever the oracle and state). -/
theorem C3_no_env_for_control_task :
    (∀ b : Bool, _is_enabled b (some UBF_CONTROL) = false)
    ∧ (∀ (o : CondaOracle) (s : DecoratorState) (osEnv : StrDict)
        (cliArgs : CliArgs), ∃ r,
        runtime_step_cli o s osEnv cliArgs UBF_CONTROL = .ok r
          ∧ r.effects = []) := by
  constructor
  · intro b; simp [_is_enabled]
  · intro o s osEnv cliArgs
    unfold runtime_step_cli runtime_step_cli_gen _is_fetch_at_exec _is_enabled
    by_cases h : o.enabledForStep s.stepName <;>
      simp [h, UBF_TASK, UBF_CONTROL]

/-- C8: `_is_fetch_at_exec` returns `False` for every argument, so
`runtime_init`, `runtime_task_created` and `runtime_step_cli` coincide with
their bodies specialised to `fetch = false`: the fetch-at-exec branches are
unreachable, `runtime_init` never populates `_env_for_fetch`, and an
enabled step always takes the `get_env_id_noconda` path. -/
theorem C8_fetch_at_exec_unreachable :
    (∀ u : Option String, _is_fetch_at_exec u = false)
    ∧ (∀ o s task_id input_paths ubf,
        runtime_task_created o s task_id input_paths ubf =
          runtime_task_created_gen o false s task_id input_paths ubf)
    ∧ (∀ o s fs tmpName extTmpNames run_id,
        runtime_init o s fs tmpName extTmpNames run_id =
          runtime_init_gen o false s fs tmpName extTmpNames run_id)
    ∧ (∀ o s fs tmpName extTmpNames run_id,
        (runtime_init o s fs tmpName extTmpNames run_id).1.envForFetch
          = s.envForFetch)
    ∧ (∀ o s osEnv cliArgs ubf,
        runtime_step_cli o s osEnv cliArgs ubf =
          runtime_step_cli_gen o false s osEnv cliArgs ubf)
    ∧ (∀ (o : CondaOracle) (s : DecoratorState) task_id input_paths ubf,
        _is_enabled (o.enabledForStep s.stepName) (some ubf) = true →
        runtime_task_created o s task_id input_paths ubf =
          (match o.getEnvIdNoconda s.stepName with
           | .envid t => .ok { s with envId := some t }
           | .other t => .error (.invalidEnvironment
              ("Unexpected ID for the Conda environment for step "
                ++ s.stepName ++ ": " ++ t)))) := by
  refine ⟨fun u => rfl, fun o s a b c => rfl, fun o s a b c d => rfl, ?_, ?_, ?_⟩
  · intro o s fs tmpName extTmpNames run_id
    simp [runtime_init, runtime_init_gen, _is_fetch_at_exec]
  · intro o s osEnv cliArgs ubf; rfl
  · intro o s task_id input_paths ubf hen
    unfold runtime_task_created runtime_task_created_gen _is_fetch_at_exec
    rw [if_pos hen]
    simp

/-- C2: in `runtime_task_created` for an enabled step (stated over
`runtime_task_created_gen`, which abstracts the constant result of
`_is_fetch_at_exec` as `fetch`), failure to recover the environment ID
raises `InvalidEnvironmentException` — for a fetch-at-exec step when
`resolve_fetch_at_exec_env`, applied to the values recorded from the
parent-task pathspec `input_paths[0]` and the loaded parameter values,
returns `None`; for a non-fetch step when `get_env_id_noconda` returns
something that is not an `EnvID` — and in the remaining cases
`self._env_id` is set to an `EnvID`. -/
theorem C2_env_id_recovery (o : CondaOracle) (fetch : Bool)
    (s : DecoratorState) (task_id : String) (p0 : String)
    (rest : List String) (ubf : String) (run0 step0 tid0 : String)
    (hsplit : splitSlash p0 = [run0, step0, tid0])
    (hen : _is_enabled (o.enabledForStep s.stepName) (some ubf) = true) :
    (fetch = true →
      (o.resolveFetchAtExecEnv s.stepName
          (taskFetchRecord o s.envForFetch run0 step0 tid0) = none →
        runtime_task_created_gen o fetch s task_id (p0 :: rest) ubf =
          .error (.invalidEnvironment
            "Cannot find the environment ID for a fetch-at-exec step"))
      ∧ (∀ e, o.resolveFetchAtExecEnv s.stepName
          (taskFetchRecord o s.envForFetch run0 step0 tid0) = some e →
        runtime_task_created_gen o fetch s task_id (p0 :: rest) ubf =
          .ok { s with
            envForFetch := taskFetchRecord o s.envForFetch run0 step0 tid0
            envId := some e }))
    ∧ (fetch = false →
      (∀ t, o.getEnvIdNoconda s.stepName = .other t →
        runtime_task_created_gen o fetch s task_id (p0 :: rest) ubf =
          .error (.invalidEnvironment
            ("Unexpected ID for the Conda environment for step "
              ++ s.stepName ++ ": " ++ t)))
      ∧ (∀ e, o.getEnvIdNoconda s.stepName = .envid e →
        runtime_task_created_gen o fetch s task_id (p0 :: rest) ubf =
          .ok { s with envId := some e })) := by
  constructor
  · rintro rfl
    constructor
    · intro hres
      unfold runtime_task_created_gen
      rw [if_pos hen]
      simp [hsplit, hres]
    · intro e hres
      unfold runtime_task_created_gen
      rw [if_pos hen]
      simp [hsplit, hres]
  · rintro rfl
    constructor
    · intro t ht
      unfold runtime_task_created_gen
      rw [if_pos hen]
      simp [ht]
    · intro e he
      unfold runtime_task_created_gen
      rw [if_pos hen]
      simp [he]

/-- Witness for C2 at a concrete input. -/
theorem C2_env_id_recovery_witness :
    runtime_task_created_gen sampleOracle false sampleState "t1" ["r/s/t"]
        UBF_TASK
      = .ok { sampleState with envId := some ⟨"req1", "full1", "linux-64"⟩ } :=
  ((C2_env_id_recovery sampleOracle false sampleState "t1" "r/s/t" [] UBF_TASK
      "r" "s" "t" (by decide) (by decide)).2 rfl).2
    ⟨"req1", "full1", "linux-64"⟩ (by decide)

/-- C4: when the export guard holds (`_is_enabled(UBF_TASK)` or
fetch-at-exec) but the step is remote or not enabled for the actual
`ubf_context`, `runtime_step_cli` returns right after storing
`json.dumps(self._env_id)` under `_METAFLOW_CONDA_ENV`: the entrypoint is
untouched, every other environment key (in particular `PYTHONPATH` and
`LD_LIBRARY_PATH`) is unchanged, and no environment is created locally. -/
theorem C4_early_return_frame (o : CondaOracle) (fetch : Bool)
    (s : DecoratorState) (osEnv : StrDict) (cliArgs : CliArgs) (ubf : String)
    (hguard : (_is_enabled (o.enabledForStep s.stepName) (some UBF_TASK)
        || fetch) = true)
    (hskip : (s.isRemote
        || !(_is_enabled (o.enabledForStep s.stepName) (some ubf))) = true) :
    runtime_step_cli_gen o fetch s osEnv cliArgs ubf =
      .ok ⟨{ cliArgs with env := (dictSet cliArgs.env "_METAFLOW_CONDA_ENV"
          (jsonDumpsEnvId s.envId)) }, []⟩
    ∧ (∀ k, k ≠ "_METAFLOW_CONDA_ENV" →
        dictGet (dictSet cliArgs.env "_METAFLOW_CONDA_ENV"
          (jsonDumpsEnvId s.envId)) k = dictGet cliArgs.env k) := by
  constructor
  · unfold runtime_step_cli_gen
    rw [if_pos hguard, if_pos hskip]
  · intro k hk
    exact dictGet_dictSet_ne _ _ _ _ hk

/-- Witness for C4 at a concrete input. -/
theorem C4_early_return_frame_witness :
    runtime_step_cli_gen sampleOracle false sampleRemoteState []
        ⟨["python"], []⟩ UBF_TASK =
      .ok ⟨{ entrypoint := ["python"]
             env := (dictSet [] "_METAFLOW_CONDA_ENV"
               (jsonDumpsEnvId sampleRemoteState.envId)) }, []⟩ :=
  (C4_early_return_frame sampleOracle false sampleRemoteState []
    ⟨["python"], []⟩ UBF_TASK (by decide) (by decide)).1

/-- C6: the resolved environment ID crosses the process boundary through
the `_METAFLOW_CONDA_ENV` environment variable: every successful
`runtime_step_cli` run that passes the export guard leaves
`json.dumps(self._env_id)` under that key in `cli_args.env`, and
`task_pre_step` (when enabled) reads the variable back from `os.environ`
and registers it as a `MetaDatum` with field `conda_env_id`, tagged with
the current retry count. -/
theorem C6_env_id_propagation (o : CondaOracle) (fetch : Bool)
    (s s2 : DecoratorState) (osEnv osEnv2 : StrDict) (cliArgs : CliArgs)
    (ubf ubf2 exe : String) (rc : Nat) (r : StepCliResult) (v : String)
    (hguard : (_is_enabled (o.enabledForStep s.stepName) (some UBF_TASK)
        || fetch) = true)
    (hok : runtime_step_cli_gen o fetch s osEnv cliArgs ubf = .ok r)
    (hen2 : _is_enabled (o.enabledForStep s2.stepName) (some ubf2) = true)
    (hv : dictGet osEnv2 "_METAFLOW_CONDA_ENV" = some v) :
    dictGet r.cliArgs.env "_METAFLOW_CONDA_ENV"
      = some (jsonDumpsEnvId s.envId)
    ∧ (task_pre_step o s2 exe osEnv2 rc ubf2).2 =
        .ok [{ field := "conda_env_id", value := v, type := "conda_env_id"
               tags := ["attempt_id:" ++ toString rc] }] := by
  constructor
  · by_cases hskip : (s.isRemote
        || !(_is_enabled (o.enabledForStep s.stepName) (some ubf))) = true
    · unfold runtime_step_cli_gen at hok
      rw [if_pos hguard, if_pos hskip] at hok
      cases hok
      exact dictGet_dictSet_self _ _ _
    · have hskipf : (s.isRemote
          || !(_is_enabled (o.enabledForStep s.stepName) (some ubf)))
            = false := by
        cases h2 : (s.isRemote
            || !(_is_enabled (o.enabledForStep s.stepName) (some ubf)))
        · rfl
        · exact absurd h2 hskip
      cases henv : s.envId with
      | none =>
        unfold runtime_step_cli_gen at hok
        rw [if_pos hguard, if_neg (by simp [hskipf]), henv] at hok
        cases hok
      | some env_id =>
        rw [runtime_step_cli_gen_run o fetch s osEnv cliArgs ubf env_id
          hguard hskipf henv] at hok
        cases hc : o.createdEnvironment env_id with
        | some info =>
          simp only [hc] at hok
          cases hok
          rw [show (stepCliFinish o s osEnv
              { cliArgs with env := (dictSet cliArgs.env "_METAFLOW_CONDA_ENV"
                  (jsonDumpsEnvId (some env_id))) }
              (info.2 ++ "/bin/python")).cliArgs.env =
            stepCliEnv o s osEnv
              (dictSet cliArgs.env "_METAFLOW_CONDA_ENV"
                (jsonDumpsEnvId (some env_id)))
              (info.2 ++ "/bin/python") from rfl]
          rw [(stepCliEnv_get o s osEnv _ _).2 _ (by decide) (by decide)]
          exact dictGet_dictSet_self _ _ _
        | none =>
          simp only [hc] at hok
          cases hres : o.environment env_id with
          | none =>
            simp only [hres] at hok
            exact Except.noConfusion hok
          | some res =>
            simp only [hres] at hok
            cases hok
            rw [show ({ stepCliFinish o s osEnv
                { cliArgs with
                  env := (dictSet cliArgs.env "_METAFLOW_CONDA_ENV"
                    (jsonDumpsEnvId (some env_id))) }
                (o.createForStep s.stepName res ++ "/bin/python") with
              effects := [CondaEffect.createForStep s.stepName]
                : StepCliResult }).cliArgs.env =
              stepCliEnv o s osEnv
                (dictSet cliArgs.env "_METAFLOW_CONDA_ENV"
                  (jsonDumpsEnvId (some env_id)))
                (o.createForStep s.stepName res ++ "/bin/python") from rfl]
            rw [(stepCliEnv_get o s osEnv _ _).2 _ (by decide) (by decide)]
            exact dictGet_dictSet_self _ _ _
  · have hget : dictGet (taskPreStepEnv exe osEnv2) "_METAFLOW_CONDA_ENV"
        = some v := by
      unfold taskPreStepEnv
      rw [dictGet_dictSet_ne _ _ _ _ (by decide)]
      exact hv
    unfold task_pre_step
    rw [if_pos hen2, hget]

/-- Witness for C6 at a concrete input. -/
theorem C6_env_id_propagation_witness :
    dictGet (StepCliResult.cliArgs
        ⟨⟨["/envs/e1/bin/python"],
          [("_METAFLOW_CONDA_ENV", "[\"req1\", \"full1\", \"linux-64\"]"),
           ("PYTHONPATH", "/tmp/mfhome")]⟩, []⟩).env "_METAFLOW_CONDA_ENV"
      = some (jsonDumpsEnvId sampleState.envId)
    ∧ (task_pre_step sampleOracle sampleState "/envs/e1/bin/python"
        [("_METAFLOW_CONDA_ENV", "null")] 3 UBF_TASK).2 =
        .ok [{ field := "conda_env_id", value := "null"
               type := "conda_env_id", tags := ["attempt_id:3"] }] :=
  C6_env_id_propagation sampleOracle false sampleState sampleState []
    [("_METAFLOW_CONDA_ENV", "null")] ⟨["python"], []⟩ UBF_TASK UBF_TASK
    "/envs/e1/bin/python" 3
    ⟨⟨["/envs/e1/bin/python"],
      [("_METAFLOW_CONDA_ENV", "[\"req1\", \"full1\", \"linux-64\"]"),
       ("PYTHONPATH", "/tmp/mfhome")]⟩, []⟩ "null"
    (by decide) (by decide) (by decide) (by decide)

/-- C1: for a worker task of an enabled, non-remote step,
`runtime_step_cli` provisions the Conda environment before user code runs:
an environment already reported by `conda.created_environment` is reused
(no creation effect), otherwise one is created through
`conda.create_for_step`; in both cases `cli_args.entrypoint[0]` becomes the
environment's `bin/python` and `cli_args.env["PYTHONPATH"]` becomes the
temporary metaflow home, prefixed by the namespace-package paths when
present. -/
theorem C1_provisions_environment (o : CondaOracle) (fetch : Bool)
    (s : DecoratorState) (osEnv : StrDict) (cliArgs : CliArgs) (ubf : String)
    (e : EnvID)
    (hen : o.enabledForStep s.stepName = true)
    (hrem : s.isRemote = false)
    (henv : s.envId = some e)
    (hubf : ubf ≠ UBF_CONTROL) :
    (∀ info, o.createdEnvironment e = some info →
      ∃ r, runtime_step_cli_gen o fetch s osEnv cliArgs ubf = .ok r
        ∧ r.cliArgs.entrypoint
            = setEntry0 cliArgs.entrypoint (info.2 ++ "/bin/python")
        ∧ dictGet r.cliArgs.env "PYTHONPATH" = some (pythonPathOf s)
        ∧ r.effects = [])
    ∧ (o.createdEnvironment e = none →
       ∀ res, o.environment e = some res →
      ∃ r, runtime_step_cli_gen o fetch s osEnv cliArgs ubf = .ok r
        ∧ r.cliArgs.entrypoint = setEntry0 cliArgs.entrypoint
            (o.createForStep s.stepName res ++ "/bin/python")
        ∧ dictGet r.cliArgs.env "PYTHONPATH" = some (pythonPathOf s)
        ∧ r.effects = [.createForStep s.stepName]) := by
  have hg : (_is_enabled (o.enabledForStep s.stepName) (some UBF_TASK)
      || fetch) = true := by
    simp [_is_enabled, UBF_TASK, UBF_CONTROL, hen]
  have hu : _is_enabled (o.enabledForStep s.stepName) (some ubf) = true := by
    simp [_is_enabled, hubf, hen]
  have hskip : (s.isRemote
      || !(_is_enabled (o.enabledForStep s.stepName) (some ubf))) = false := by
    rw [hrem, hu]; rfl
  constructor
  · intro info hc
    have hrun := runtime_step_cli_gen_run o fetch s osEnv cliArgs ubf e
      hg hskip henv
    simp only [hc] at hrun
    refine ⟨_, hrun, ?_, ?_, ?_⟩
    · rfl
    · exact (stepCliEnv_get o s osEnv
        (dictSet cliArgs.env "_METAFLOW_CONDA_ENV"
          (jsonDumpsEnvId (some e)))
        (info.2 ++ "/bin/python")).1
    · rfl
  · intro hc res hres
    have hrun := runtime_step_cli_gen_run o fetch s osEnv cliArgs ubf e
      hg hskip henv
    simp only [hc, hres] at hrun
    refine ⟨_, hrun, ?_, ?_, ?_⟩
    · rfl
    · exact (stepCliEnv_get o s osEnv
        (dictSet cliArgs.env "_METAFLOW_CONDA_ENV"
          (jsonDumpsEnvId (some e)))
        (o.createForStep s.stepName res ++ "/bin/python")).1
    · rfl

/-- Witness for C1 at a concrete input. -/
theorem C1_provisions_environment_witness :
    ∃ r, runtime_step_cli_gen sampleOracle false sampleState []
        ⟨["python"], []⟩ UBF_TASK = .ok r
      ∧ r.cliArgs.entrypoint
          = setEntry0 ["python"] ((("id1", "/envs/e1") : String × String).2
              ++ "/bin/python")
      ∧ dictGet r.cliArgs.env "PYTHONPATH" = some (pythonPathOf sampleState)
      ∧ r.effects = [] :=
  (C1_provisions_environment sampleOracle false sampleState []
      ⟨["python"], []⟩ UBF_TASK ⟨"req1", "full1", "linux-64"⟩
      (by decide) (by decide) (by decide) (by decide)).1
    ("id1", "/envs/e1") (by decide)

/-- C5: for a fetch-at-exec step (stated over the `_gen` bodies with the
constant `_is_fetch_at_exec` result abstracted as `fetch = true`),
environment-ID resolution is deferred to task execution: `runtime_init`
records the run id (also as `METAFLOW_RUN_ID_BASE`) and the step name in
`self._env_for_fetch`; `runtime_task_created` additionally records
`METAFLOW_TASK_ID` (the task id parsed from `input_paths[0]`) and one
`METAFLOW_INIT_*` entry per flow parameter, valued by the parameter loaded
from the parent task datastore; and `self._env_id` is then the `EnvID`
returned by `resolve_fetch_at_exec_env` on these recorded values. -/
theorem C5_fetch_at_exec_resolution (o : CondaOracle) (s : DecoratorState)
    (fs : FS) (tmpName : String) (extTmpNames : Nat → String)
    (run_id task_id ubf p0 : String) (rest : List String)
    (run0 step0 tid0 : String) (e : EnvID)
    (hen0 : _is_enabled (o.enabledForStep s.stepName) none = true)
    (hen : _is_enabled (o.enabledForStep s.stepName) (some ubf) = true)
    (hsplit : splitSlash p0 = [run0, step0, tid0])
    (hnodup : (o.flowParams.map initVarKey).Nodup)
    (hres : o.resolveFetchAtExecEnv s.stepName
        (taskFetchRecord o
          (initFetchRecord s.envForFetch run_id s.stepName) run0 step0 tid0)
      = some e) :
    ((runtime_init_gen o true s fs tmpName extTmpNames run_id).1.envForFetch
      = initFetchRecord s.envForFetch run_id s.stepName)
    ∧ dictGet (initFetchRecord s.envForFetch run_id s.stepName)
        "METAFLOW_RUN_ID" = some run_id
    ∧ dictGet (initFetchRecord s.envForFetch run_id s.stepName)
        "METAFLOW_STEP_NAME" = some s.stepName
    ∧ dictGet (taskFetchRecord o
          (initFetchRecord s.envForFetch run_id s.stepName) run0 step0 tid0)
        "METAFLOW_TASK_ID" = some tid0
    ∧ (∀ var ∈ o.flowParams,
        dictGet (taskFetchRecord o
            (initFetchRecord s.envForFetch run_id s.stepName) run0 step0 tid0)
          (initVarKey var) = some (o.loadParameter run0 step0 tid0 var))
    ∧ runtime_task_created_gen o true
        (runtime_init_gen o true s fs tmpName extTmpNames run_id).1
        task_id (p0 :: rest) ubf
      = .ok { (runtime_init_gen o true s fs tmpName extTmpNames run_id).1 with
          envForFetch := taskFetchRecord o
            (initFetchRecord s.envForFetch run_id s.stepName) run0 step0 tid0
          envId := some e } := by
  have hinit : (runtime_init_gen o true s fs tmpName extTmpNames
      run_id).1.envForFetch = initFetchRecord s.envForFetch run_id s.stepName := by
    simp [runtime_init_gen, hen0]
  have hen1 : _is_enabled (o.enabledForStep
      (runtime_init_gen o true s fs tmpName extTmpNames run_id).1.stepName)
      (some ubf) = true := hen
  have hres1 : o.resolveFetchAtExecEnv
      (runtime_init_gen o true s fs tmpName extTmpNames run_id).1.stepName
      (taskFetchRecord o
        (runtime_init_gen o true s fs tmpName extTmpNames run_id).1.envForFetch
        run0 step0 tid0) = some e := by
    rw [hinit]; exact hres
  refine ⟨hinit, (initFetchRecord_get _ _ _).1, (initFetchRecord_get _ _ _).2.2,
    (taskFetchRecord_get o _ run0 step0 tid0 hnodup).1,
    (taskFetchRecord_get o _ run0 step0 tid0 hnodup).2, ?_⟩
  rw [runtime_task_created_gen_fetch o _ task_id p0 rest ubf run0 step0 tid0 e
    hen1 hsplit hres1, hinit]

/-- Witness for C5 at a concrete input. -/
theorem C5_fetch_at_exec_resolution_witness :
    dictGet (taskFetchRecord sampleOracle
        (initFetchRecord [] "run7" "train") "r7" "start" "3")
      "METAFLOW_TASK_ID" = some "3" :=
  (C5_fetch_at_exec_resolution sampleOracle sampleState [] "tmp5"
    (fun _ => "e") "run7" "t1" UBF_TASK "r7/start/3" [] "r7" "start" "3"
    ⟨"req1", "full1", "linux-64"⟩ (by decide) (by decide) (by decide)
    (by decide) (by decide)).2.2.2.1

/-- C7: the symlink/tempdir bookkeeping round-trips: `runtime_init` creates
a fresh temporary directory under `/tmp` (stored in `self._metaflow_home`)
holding a symlink named `metaflow` to the installed metaflow package and
either a symlink to the root `INFO` file when it exists or a freshly
written JSON `INFO` file when it does not, and `runtime_finished` removes
the whole temporary tree, restoring the filesystem exactly. -/
theorem C7_tempdir_roundtrip (o : CondaOracle) (fetch : Bool)
    (s : DecoratorState) (fs : FS) (tmpName : String)
    (extTmpNames : Nat → String) (run_id : String)
    (hfresh : ∀ ent ∈ fs, ent.1 ≠ "/tmp/" ++ tmpName
      ∧ strStarts ("/tmp/" ++ tmpName ++ "/") ent.1 = false)
    (hroot1 : o.metaflowRoot ++ "/INFO" ≠ "/tmp/" ++ tmpName)
    (hroot2 : strStarts ("/tmp/" ++ tmpName ++ "/")
        (o.metaflowRoot ++ "/INFO") = false) :
    (runtime_init_gen o fetch s fs tmpName extTmpNames run_id).1.metaflowHome
      = "/tmp/" ++ tmpName
    ∧ fsLookup (runtime_init_gen o fetch s fs tmpName extTmpNames run_id).2
        ("/tmp/" ++ tmpName) = some FSEntry.dir
    ∧ fsLookup (runtime_init_gen o fetch s fs tmpName extTmpNames run_id).2
        ("/tmp/" ++ tmpName ++ "/metaflow")
      = some (FSEntry.symlink (o.metaflowRoot ++ "/metaflow"))
    ∧ (fsIsFile fs (o.metaflowRoot ++ "/INFO") = true →
        fsLookup (runtime_init_gen o fetch s fs tmpName extTmpNames run_id).2
          ("/tmp/" ++ tmpName ++ "/INFO")
        = some (FSEntry.symlink (o.metaflowRoot ++ "/INFO")))
    ∧ (fsIsFile fs (o.metaflowRoot ++ "/INFO") = false →
        fsLookup (runtime_init_gen o fetch s fs tmpName extTmpNames run_id).2
          ("/tmp/" ++ tmpName ++ "/INFO")
        = some (FSEntry.file o.envInfoJson))
    ∧ runtime_finished
        (runtime_init_gen o fetch s fs tmpName extTmpNames run_id).1
        (runtime_init_gen o fetch s fs tmpName extTmpNames run_id).2 = fs := by
  have h2 : (runtime_init_gen o fetch s fs tmpName extTmpNames run_id).2
      = fs ++ runtime_init_adds o fs ("/tmp/" ++ tmpName) extTmpNames := rfl
  have hne1 : ¬ (("/tmp/" ++ tmpName : String)
      = "/tmp/" ++ tmpName ++ "/metaflow") :=
    Ne.symm (string_ne_append (by decide))
  have hne2 : ¬ (("/tmp/" ++ tmpName : String)
      = "/tmp/" ++ tmpName ++ "/INFO") :=
    Ne.symm (string_ne_append (by decide))
  have hne3 : ¬ (("/tmp/" ++ tmpName ++ "/metaflow" : String)
      = "/tmp/" ++ tmpName ++ "/INFO") := by
    intro h
    exact absurd (string_append_right_cancel h) (by decide)
  have hmfne : ∀ ent ∈ fs, ent.1 ≠ "/tmp/" ++ tmpName ++ "/metaflow" := by
    intro ent h
    rw [home_slash _ _ "metaflow" (by decide)]
    exact ne_of_not_under (hfresh ent h).2 "metaflow"
  have hinfne : ∀ ent ∈ fs, ent.1 ≠ "/tmp/" ++ tmpName ++ "/INFO" := by
    intro ent h
    rw [home_slash _ _ "INFO" (by decide)]
    exact ne_of_not_under (hfresh ent h).2 "INFO"
  have hrootne : o.metaflowRoot ++ "/INFO"
      ≠ "/tmp/" ++ tmpName ++ "/metaflow" := by
    rw [home_slash ("/tmp/" ++ tmpName) "/metaflow" "metaflow" (by decide)]
    exact ne_of_not_under hroot2 "metaflow"
  have hiso : fsIsFile
      (fs ++ [("/tmp/" ++ tmpName, FSEntry.dir),
              ("/tmp/" ++ tmpName ++ "/metaflow",
               FSEntry.symlink (o.metaflowRoot ++ "/metaflow"))])
      (o.metaflowRoot ++ "/INFO")
      = fsIsFile fs (o.metaflowRoot ++ "/INFO") := by
    have hlk : fsLookup
        (fs ++ [("/tmp/" ++ tmpName, FSEntry.dir),
                ("/tmp/" ++ tmpName ++ "/metaflow",
                 FSEntry.symlink (o.metaflowRoot ++ "/metaflow"))])
        (o.metaflowRoot ++ "/INFO")
        = fsLookup fs (o.metaflowRoot ++ "/INFO") := by
      apply fsLookup_append_irrel
      intro ent hent
      simp only [List.mem_cons, List.not_mem_nil, or_false] at hent
      rcases hent with h | h
      · subst h; exact Ne.symm hroot1
      · subst h; exact Ne.symm hrootne
    unfold fsIsFile
    rw [hlk]
  have hlook_info : fsLookup
      (fs ++ runtime_init_adds o fs ("/tmp/" ++ tmpName) extTmpNames)
      ("/tmp/" ++ tmpName ++ "/INFO")
      = some (if fsIsFile fs (o.metaflowRoot ++ "/INFO")
          then FSEntry.symlink (o.metaflowRoot ++ "/INFO")
          else FSEntry.file o.envInfoJson) := by
    rw [fsLookup_append_none _ _ _ (fsLookup_eq_none _ _ hinfne)]
    unfold runtime_init_adds
    apply fsLookup_append_some
    apply fsLookup_append_some
    simp only [fsLookup, hne1, hne2, hne3, if_false, if_true, if_pos rfl]
    rw [hiso]
  refine ⟨rfl, ?_, ?_, ?_, ?_, ?_⟩
  · rw [h2, fsLookup_append_none _ _ _
      (fsLookup_eq_none _ _ (fun ent h => (hfresh ent h).1))]
    unfold runtime_init_adds
    apply fsLookup_append_some
    apply fsLookup_append_some
    simp [fsLookup]
  · rw [h2, fsLookup_append_none _ _ _ (fsLookup_eq_none _ _ hmfne)]
    unfold runtime_init_adds
    apply fsLookup_append_some
    apply fsLookup_append_some
    simp [fsLookup, hne1]
  · intro hinfo
    rw [h2, hlook_info, hinfo]
    simp
  · intro hinfo
    rw [h2, hlook_info, hinfo]
    simp
  · unfold runtime_finished
    rw [show (runtime_init_gen o fetch s fs tmpName extTmpNames
        run_id).1.metaflowHome = "/tmp/" ++ tmpName from rfl]
    rw [h2, List.filter_append]
    have hkeep : ∀ ent ∈ fs, (!(ent.1 == "/tmp/" ++ tmpName
        || strStarts ("/tmp/" ++ tmpName ++ "/") ent.1)) = true := by
      intro ent h
      rw [beq_eq_false_iff_ne.mpr (hfresh ent h).1, (hfresh ent h).2]
      rfl
    have hdrop : ∀ ent ∈ runtime_init_adds o fs ("/tmp/" ++ tmpName)
        extTmpNames,
        ¬ ((!(ent.1 == "/tmp/" ++ tmpName
          || strStarts ("/tmp/" ++ tmpName ++ "/") ent.1)) = true) := by
      intro ent h
      rcases runtime_init_adds_under o fs _ extTmpNames ent h with h1 | h1 <;>
        simp [h1]
    rw [List.filter_eq_self.mpr hkeep, List.filter_eq_nil_iff.mpr hdrop,
      List.append_nil]

/-- Witness for C7 at a concrete input. -/
theorem C7_tempdir_roundtrip_witness :
    runtime_finished
      (runtime_init_gen sampleOracle false sampleState
        [("/etc/hosts", FSEntry.file "h")] "w7" (fun _ => "x") "run1").1
      (runtime_init_gen sampleOracle false sampleState
        [("/etc/hosts", FSEntry.file "h")] "w7" (fun _ => "x") "run1").2
    = [("/etc/hosts", FSEntry.file "h")] :=
  (C7_tempdir_roundtrip sampleOracle false sampleState
    [("/etc/hosts", FSEntry.file "h")] "w7" (fun _ => "x") "run1"
    (by decide) (by decide) (by decide)).2.2.2.2.2

/-- Witness for C8 at a concrete input. -/
theorem C8_fetch_at_exec_unreachable_witness :
    runtime_task_created sampleOracle sampleState "t9" ["r/s/t"] UBF_TASK =
      .ok { sampleState with envId := some ⟨"req1", "full1", "linux-64"⟩ } := by
  rw [(C8_fetch_at_exec_unreachable).2.2.2.2.2 sampleOracle sampleState "t9"
      ["r/s/t"] UBF_TASK (by decide)]
  rfl

end CondaStep
